import Mathlib

/-!
# Scheduler API (scheduler/internal/api/api.go)

A shallow embedding of the package `api`: the type `Scheduler` and its four
methods `CancelTask`, `GetTask`, `ListTasks` and `ScheduleTask`, followed by
theorems about them.

Go values are embedded as follows.
* A pointer `*T` is `Option T`: `none` is the nil pointer, `some v` a pointer
  whose pointee holds `v`.
* The interface `error` is `Option Status`: `none` is the nil error.
* A method `func (s *Scheduler) M(ctx, in) (*Resp, error)` is a function of the
  receiver, the context and the request that returns the pair of results.
* The effect of a call on the receiver is made explicit by `Scheduler.step`.
-/

namespace context

/-- Go `context.Context` as far as a callee can observe it: whether it was
cancelled and its deadline, if any. -/
structure Ctx where
  cancelled : Bool
  deadline : Option Nat
  deriving DecidableEq, Repr

/-- The interface value `context.Context`; `none` is the nil interface. -/
abbrev Context := Option Ctx

/-- Go `context.Background()`. -/
def Background : Context := some { cancelled := false, deadline := none }

end context

namespace servicespb

/-- Modelled from the spec: the error taxonomy of section 7 (`InvalidArgument`,
`NotFound`, `ConflictError`, `ExecutionError`, `Unavailable`) and the fixed
"not implemented" error of section 9. The package `servicespb` is generated
code that is not part of the sources. -/
inductive Code where
  | InvalidArgument
  | NotFound
  | ConflictError
  | ExecutionError
  | Unavailable
  | Unimplemented
  deriving DecidableEq, Repr

/-- Modelled from the spec: a non-nil RPC error, a code of the taxonomy with a
message. -/
structure Status where
  code : Code
  message : String
  deriving DecidableEq, Repr

/-- Modelled from the spec: the task states of section 3. -/
inductive TaskState where
  | Created
  | Queued
  | Running
  | Succeeded
  | Failed
  | Cancelled
  deriving DecidableEq, Repr

/-- Modelled from the spec: the task record of section 3. The message types
of `servicespb` are generated code that is not part of the sources. -/
structure Task where
  id : String
  state : TaskState
  payload : String
  priority : Int
  createdAt : Nat
  startedAt : Option Nat
  finishedAt : Option Nat
  result : Option String
  error : Option String
  cancelRequested : Bool
  deriving DecidableEq, Repr

/-- Modelled from the spec: the input of ScheduleTask in section 6, a payload
and scheduling options. -/
structure ScheduleTaskRequest where
  payload : String
  priority : Int
  deriving DecidableEq, Repr

/-- Modelled from the spec: the output of ScheduleTask in section 6, the
assigned task id. -/
structure ScheduleTaskResponse where
  id : String
  deriving DecidableEq, Repr

/-- Modelled from the spec: the input of GetTask in section 6, a task id. -/
structure GetTaskRequest where
  id : String
  deriving DecidableEq, Repr

/-- Modelled from the spec: the output of GetTask in section 6, the full task
record. -/
structure GetTaskResponse where
  task : Task
  deriving DecidableEq, Repr

/-- Modelled from the spec: the input of ListTasks in section 6, a filter on
state and creation time, a pagination token and a page size. -/
structure ListTasksRequest where
  state : Option TaskState
  createdFrom : Option Nat
  createdTo : Option Nat
  pageToken : String
  pageSize : Int
  deriving DecidableEq, Repr

/-- Modelled from the spec: the output of ListTasks in section 6, an ordered
sequence of task records and a next-page token. -/
structure ListTasksResponse where
  tasks : List Task
  nextPageToken : String
  deriving DecidableEq, Repr

/-- Modelled from the spec: the input of CancelTask in section 6, a task id. -/
structure CancelTaskRequest where
  id : String
  deriving DecidableEq, Repr

/-- Modelled from the spec: the output of CancelTask in section 6, an
acknowledgement without content. -/
structure CancelTaskResponse where
  deriving DecidableEq, Repr

/-- Modelled from the spec: the embedded "unimplemented server" base of
section 9; it holds no data. -/
structure UnimplementedSchedulerServiceServer where
  deriving DecidableEq, Repr

/-- Modelled from the spec: the fixed "not implemented" error that the default
implementation returns for an operation that is not overridden (section 9). -/
def notImplemented (method : String) : Status :=
  { code := Code.Unimplemented, message := "method " ++ method ++ " not implemented" }

/-- Modelled from the spec: default CancelTask of the embedded base (section 9). -/
def UnimplementedSchedulerServiceServer.CancelTask (_ctx : context.Context)
    (_req : Option CancelTaskRequest) : Option CancelTaskResponse × Option Status :=
  (none, some (notImplemented "CancelTask"))

/-- Modelled from the spec: default GetTask of the embedded base (section 9). -/
def UnimplementedSchedulerServiceServer.GetTask (_ctx : context.Context)
    (_req : Option GetTaskRequest) : Option GetTaskResponse × Option Status :=
  (none, some (notImplemented "GetTask"))

/-- Modelled from the spec: default ListTasks of the embedded base (section 9). -/
def UnimplementedSchedulerServiceServer.ListTasks (_ctx : context.Context)
    (_req : Option ListTasksRequest) : Option ListTasksResponse × Option Status :=
  (none, some (notImplemented "ListTasks"))

/-- Modelled from the spec: default ScheduleTask of the embedded base (section 9). -/
def UnimplementedSchedulerServiceServer.ScheduleTask (_ctx : context.Context)
    (_req : Option ScheduleTaskRequest) : Option ScheduleTaskResponse × Option Status :=
  (none, some (notImplemented "ScheduleTask"))

/-- Modelled from the spec: the direct transitions of the task state machine
of section 4.4, `Created → Queued → Running → {Succeeded | Failed | Cancelled}`
with the direct cancellations `Created → Cancelled` and `Queued → Cancelled`. -/
def TaskState.transition : TaskState → TaskState → Bool
  | .Created, .Queued => true
  | .Created, .Cancelled => true
  | .Queued, .Running => true
  | .Queued, .Cancelled => true
  | .Running, .Succeeded => true
  | .Running, .Failed => true
  | .Running, .Cancelled => true
  | _, _ => false

/-- Modelled from the spec: the position of a state along
`Created → Queued → Running → {Succeeded | Failed | Cancelled}`. -/
def TaskState.rank : TaskState → Nat
  | .Created => 0
  | .Queued => 1
  | .Running => 2
  | .Succeeded => 3
  | .Failed => 3
  | .Cancelled => 3

/-- Modelled from the spec: `a.notBackward b` holds when a task in state `a`
may later be found in state `b`: it stayed where it was or moved forward along
the state machine. -/
def TaskState.notBackward (a b : TaskState) : Bool :=
  decide (a = b) || decide (a.rank < b.rank)

/-- Modelled from the spec: a state is terminal when it is one of Succeeded,
Failed and Cancelled. -/
def TaskState.terminal : TaskState → Bool
  | .Succeeded => true
  | .Failed => true
  | .Cancelled => true
  | _ => false

/-- Modelled from the spec: a payload is valid when it is not empty (section
4.4); the spec leaves the payload otherwise opaque. -/
def validPayload (payload : String) : Bool :=
  !(payload.length == 0)

end servicespb

namespace api

open servicespb

/-- Go builtin interface `error`; `none` is nil. -/
abbrev error := Option Status

/-- The type `Scheduler` of api.go: a struct whose only field is the embedded
`servicespb.UnimplementedSchedulerServiceServer` (the field `scheduler` is
commented out in the source). The embedded type is declared outside the
sources and is a parameter here. -/
structure Scheduler (Srv : Type) where
  UnimplementedSchedulerServiceServer : Srv
  deriving DecidableEq, Repr

/-- Method `(*Scheduler).CancelTask` of api.go: `return nil, nil`. -/
def Scheduler.CancelTask {Srv : Type} (_s : Option (Scheduler Srv)) (_ctx : context.Context)
    (_req : Option CancelTaskRequest) : Option CancelTaskResponse × error :=
  (none, none)

/-- Method `(*Scheduler).GetTask` of api.go: `return nil, nil`. -/
def Scheduler.GetTask {Srv : Type} (_s : Option (Scheduler Srv)) (_ctx : context.Context)
    (_req : Option GetTaskRequest) : Option GetTaskResponse × error :=
  (none, none)

/-- Method `(*Scheduler).ListTasks` of api.go: `return nil, nil`. -/
def Scheduler.ListTasks {Srv : Type} (_s : Option (Scheduler Srv)) (_ctx : context.Context)
    (_req : Option ListTasksRequest) : Option ListTasksResponse × error :=
  (none, none)

/-- Method `(*Scheduler).ScheduleTask` of api.go: `return nil, nil`. -/
def Scheduler.ScheduleTask {Srv : Type} (_s : Option (Scheduler Srv)) (_ctx : context.Context)
    (_req : Option ScheduleTaskRequest) : Option ScheduleTaskResponse × error :=
  (none, none)

/-- A call of one of the four methods, with its arguments. -/
inductive Call where
  | CancelTask (ctx : context.Context) (req : Option CancelTaskRequest)
  | GetTask (ctx : context.Context) (req : Option GetTaskRequest)
  | ListTasks (ctx : context.Context) (req : Option ListTasksRequest)
  | ScheduleTask (ctx : context.Context) (req : Option ScheduleTaskRequest)
  deriving DecidableEq, Repr

/-- What a call returned: the response pointer and the error. -/
inductive Reply where
  | CancelTask (resp : Option CancelTaskResponse) (err : error)
  | GetTask (resp : Option GetTaskResponse) (err : error)
  | ListTasks (resp : Option ListTasksResponse) (err : error)
  | ScheduleTask (resp : Option ScheduleTaskResponse) (err : error)
  deriving DecidableEq, Repr

/-- The error component of a reply. -/
def Reply.err : Reply → error
  | .CancelTask _ e => e
  | .GetTask _ e => e
  | .ListTasks _ e => e
  | .ScheduleTask _ e => e

/-- The task id a reply hands out: the id in a non-nil ScheduleTask response. -/
def Reply.assignedId : Reply → Option String
  | .ScheduleTask (some resp) _ => some resp.id
  | _ => none

/-- One call on the receiver `s`: the receiver after the call and the reply.
None of the four method bodies stores through `s`, and the package has no
other variable, so the receiver is returned as it was passed. -/
def Scheduler.step {Srv : Type} (s : Option (Scheduler Srv)) :
    Call → Option (Scheduler Srv) × Reply
  | .CancelTask ctx req =>
    let r := Scheduler.CancelTask s ctx req
    (s, .CancelTask r.1 r.2)
  | .GetTask ctx req =>
    let r := Scheduler.GetTask s ctx req
    (s, .GetTask r.1 r.2)
  | .ListTasks ctx req =>
    let r := Scheduler.ListTasks s ctx req
    (s, .ListTasks r.1 r.2)
  | .ScheduleTask ctx req =>
    let r := Scheduler.ScheduleTask s ctx req
    (s, .ScheduleTask r.1 r.2)

/-- A sequence of calls on the receiver `s`, in order: the receiver after the
last call and the replies. -/
def Scheduler.run {Srv : Type} (s : Option (Scheduler Srv)) :
    List Call → Option (Scheduler Srv) × List Reply
  | [] => (s, [])
  | c :: cs =>
    let r := Scheduler.step s c
    let rest := Scheduler.run r.1 cs
    (rest.1, r.2 :: rest.2)

/-- The task ids known after a sequence of calls on `s`: those that a
ScheduleTask call of the sequence returned. -/
def Scheduler.assignedIds {Srv : Type} (s : Option (Scheduler Srv)) (calls : List Call) :
    List String :=
  (Scheduler.run s calls).2.filterMap Reply.assignedId

/-- The state of task `id` as a client observes it on `s`: the state of the
record that GetTask returns, if it returns one. -/
def Scheduler.observedState {Srv : Type} (s : Option (Scheduler Srv)) (ctx : context.Context)
    (id : String) : Option TaskState :=
  (Scheduler.GetTask s ctx (some { id := id })).1.map (fun resp => resp.task.state)

/-- Two successive readings of a task state are monotonic when the task was
unknown at the first one, or is known at both and did not move backward. -/
def monotonic : Option TaskState → Option TaskState → Bool
  | none, _ => true
  | some _, none => false
  | some a, some b => a.notBackward b

/-- A freshly constructed Scheduler, `&Scheduler{}`, over the data-free
embedded base. -/
def fresh : Option (Scheduler UnimplementedSchedulerServiceServer) :=
  some { UnimplementedSchedulerServiceServer := {} }

/-! ## Lemmas on the state machine and on sequences of calls -/

/-- The relation "`b` is a direct successor of `a`" of the state machine. -/
abbrev directSuccessor (a b : TaskState) : Prop :=
  a.transition b = true

theorem notBackward_refl (a : TaskState) : a.notBackward a = true := by
  cases a <;> decide

theorem notBackward_trans (a b c : TaskState) :
    a.notBackward b = true → b.notBackward c = true → a.notBackward c = true := by
  cases a <;> cases b <;> cases c <;> decide

theorem notBackward_of_transition (a b : TaskState) :
    a.transition b = true → a.notBackward b = true := by
  cases a <;> cases b <;> decide

/-- The closed form `notBackward` is exactly reachability along the direct
transitions of the state machine. -/
theorem notBackward_iff_reachable (a b : TaskState) :
    a.notBackward b = true ↔ Relation.ReflTransGen directSuccessor a b := by
  have hCQ : Relation.ReflTransGen directSuccessor .Created .Queued :=
    Relation.ReflTransGen.single (by decide)
  have hCX : Relation.ReflTransGen directSuccessor .Created .Cancelled :=
    Relation.ReflTransGen.single (by decide)
  have hQR : Relation.ReflTransGen directSuccessor .Queued .Running :=
    Relation.ReflTransGen.single (by decide)
  have hQX : Relation.ReflTransGen directSuccessor .Queued .Cancelled :=
    Relation.ReflTransGen.single (by decide)
  have hRS : Relation.ReflTransGen directSuccessor .Running .Succeeded :=
    Relation.ReflTransGen.single (by decide)
  have hRF : Relation.ReflTransGen directSuccessor .Running .Failed :=
    Relation.ReflTransGen.single (by decide)
  have hRX : Relation.ReflTransGen directSuccessor .Running .Cancelled :=
    Relation.ReflTransGen.single (by decide)
  constructor
  · intro h
    cases a <;> cases b <;>
      first
        | exact absurd h (by decide)
        | exact Relation.ReflTransGen.refl
        | exact hCQ
        | exact hCX
        | exact hQR
        | exact hQX
        | exact hRS
        | exact hRF
        | exact hRX
        | exact hCQ.trans hQR
        | exact hQR.trans hRS
        | exact hQR.trans hRF
        | exact (hCQ.trans hQR).trans hRS
        | exact (hCQ.trans hQR).trans hRF
  · intro h
    induction h with
    | refl => exact notBackward_refl a
    | tail _ hbc ih => exact notBackward_trans _ _ _ ih (notBackward_of_transition _ _ hbc)

theorem monotonic_self (x : Option TaskState) : monotonic x x = true := by
  cases x with
  | none => rfl
  | some a => exact notBackward_refl a

theorem Scheduler.step_receiver {Srv : Type} (s : Option (Scheduler Srv)) (c : Call) :
    (Scheduler.step s c).1 = s := by
  cases c <;> rfl

theorem Scheduler.step_err {Srv : Type} (s : Option (Scheduler Srv)) (c : Call) :
    (Scheduler.step s c).2.err = none := by
  cases c <;> rfl

theorem Scheduler.step_assignedId {Srv : Type} (s : Option (Scheduler Srv)) (c : Call) :
    (Scheduler.step s c).2.assignedId = none := by
  cases c <;> rfl

theorem Scheduler.run_receiver {Srv : Type} (s : Option (Scheduler Srv)) (calls : List Call) :
    (Scheduler.run s calls).1 = s := by
  induction calls generalizing s with
  | nil => rfl
  | cons c cs ih =>
    show (Scheduler.run (Scheduler.step s c).1 cs).1 = s
    rw [ih, Scheduler.step_receiver]

theorem Scheduler.assignedIds_eq_nil {Srv : Type} (s : Option (Scheduler Srv))
    (calls : List Call) : Scheduler.assignedIds s calls = [] := by
  induction calls generalizing s with
  | nil => rfl
  | cons c cs ih =>
    have h := ih (Scheduler.step s c).1
    unfold Scheduler.assignedIds at h ⊢
    show List.filterMap Reply.assignedId
      ((Scheduler.step s c).2 :: (Scheduler.run (Scheduler.step s c).1 cs).2) = []
    rw [List.filterMap_cons, Scheduler.step_assignedId]
    exact h

/-! ## The claims -/

/-- C1, as stated, fails: on a freshly constructed Scheduler the valid payload
"sleep" is scheduled without error, but no response carrying a task id is
returned, so there is no id for which a following GetTask could return a record
in state Created or Queued. -/
theorem C1_schedule_then_get_counterexample :
    validPayload "sleep" = true ∧
    ¬ ∃ resp : ScheduleTaskResponse,
        Scheduler.ScheduleTask fresh context.Background
            (some { payload := "sleep", priority := 0 }) = (some resp, none) ∧
        ∃ got : GetTaskResponse,
          Scheduler.GetTask
              (Scheduler.step fresh
                (Call.ScheduleTask context.Background
                  (some { payload := "sleep", priority := 0 }))).1
              context.Background (some { id := resp.id }) = (some got, none) ∧
          (got.task.state = TaskState.Created ∨ got.task.state = TaskState.Queued) := by
  refine ⟨by decide, ?_⟩
  rintro ⟨resp, h, _⟩
  simp [Scheduler.ScheduleTask] at h

/-- C1, amended: for every valid payload ScheduleTask returns without error,
with a nil response that carries no task id; a GetTask issued immediately
afterwards, for any id, returns without error a nil response, hence no task
record at all, and none in state Running, Succeeded, Failed or Cancelled. -/
theorem C1_schedule_then_get {Srv : Type} (s : Option (Scheduler Srv))
    (ctx ctx2 : context.Context) (req : ScheduleTaskRequest) (id : String)
    (hvalid : validPayload req.payload = true) :
    Scheduler.ScheduleTask s ctx (some req) = (none, none) ∧
    Scheduler.GetTask (Scheduler.step s (Call.ScheduleTask ctx (some req))).1 ctx2
        (some { id := id }) = (none, none) ∧
    ∀ st : TaskState,
      Scheduler.observedState (Scheduler.step s (Call.ScheduleTask ctx (some req))).1 ctx2 id
        ≠ some st := by
  have _ := hvalid
  refine ⟨rfl, rfl, ?_⟩
  intro st h
  simp [Scheduler.observedState, Scheduler.GetTask] at h

/-- Witness of C1 amended: the valid payload "sleep" on a fresh Scheduler. -/
theorem C1_schedule_then_get_witness :
    validPayload "sleep" = true ∧
    Scheduler.ScheduleTask fresh context.Background
        (some { payload := "sleep", priority := 0 }) = (none, none) ∧
    Scheduler.GetTask
        (Scheduler.step fresh
          (Call.ScheduleTask context.Background (some { payload := "sleep", priority := 0 }))).1
        context.Background (some { id := "task-1" }) = (none, none) ∧
    ∀ st : TaskState,
      Scheduler.observedState
        (Scheduler.step fresh
          (Call.ScheduleTask context.Background (some { payload := "sleep", priority := 0 }))).1
        context.Background "task-1" ≠ some st :=
  ⟨by decide,
   C1_schedule_then_get fresh context.Background context.Background
     { payload := "sleep", priority := 0 } "task-1" (by decide)⟩

/-- C2, as stated, fails: on a freshly constructed Scheduler, on which no task
was ever scheduled, GetTask for the id "task-1" does not fail with NotFound. -/
theorem C2_get_unknown_counterexample :
    "task-1" ∉ Scheduler.assignedIds fresh [] ∧
    ¬ ∃ e : Status,
        (Scheduler.GetTask fresh context.Background (some { id := "task-1" })).2 = some e ∧
        e.code = Code.NotFound := by
  refine ⟨by simp [Scheduler.assignedIds, Scheduler.run], ?_⟩
  rintro ⟨e, h, _⟩
  simp [Scheduler.GetTask] at h

/-- C2, amended: for every request whose task id is not known to the scheduler
(after any sequence of calls, the empty one on a fresh Scheduler included),
GetTask returns no task record and a nil error. -/
theorem C2_get_unknown {Srv : Type} (s : Option (Scheduler Srv)) (calls : List Call)
    (ctx : context.Context) (req : GetTaskRequest)
    (hunknown : req.id ∉ Scheduler.assignedIds s calls) :
    (Scheduler.GetTask (Scheduler.run s calls).1 ctx (some req)).1 = none ∧
    (Scheduler.GetTask (Scheduler.run s calls).1 ctx (some req)).2 = none := by
  have _ := hunknown
  exact ⟨rfl, rfl⟩

/-- Witness of C2 amended: the id "task-1" after one ScheduleTask call on a
fresh Scheduler. -/
theorem C2_get_unknown_witness :
    "task-1" ∉ Scheduler.assignedIds fresh
        [Call.ScheduleTask context.Background (some { payload := "sleep", priority := 0 })] ∧
    (Scheduler.GetTask
        (Scheduler.run fresh
          [Call.ScheduleTask context.Background (some { payload := "sleep", priority := 0 })]).1
        context.Background (some { id := "task-1" })).1 = none ∧
    (Scheduler.GetTask
        (Scheduler.run fresh
          [Call.ScheduleTask context.Background (some { payload := "sleep", priority := 0 })]).1
        context.Background (some { id := "task-1" })).2 = none :=
  ⟨by simp [Scheduler.assignedIds_eq_nil],
   C2_get_unknown fresh
     [Call.ScheduleTask context.Background (some { payload := "sleep", priority := 0 })]
     context.Background { id := "task-1" } (by simp [Scheduler.assignedIds_eq_nil])⟩

/-- C3, as stated, fails: on a freshly constructed Scheduler, CancelTask for
the id "task-1" does not fail with NotFound. -/
theorem C3_cancel_unknown_counterexample :
    "task-1" ∉ Scheduler.assignedIds fresh [] ∧
    ¬ ∃ e : Status,
        (Scheduler.CancelTask fresh context.Background (some { id := "task-1" })).2 = some e ∧
        e.code = Code.NotFound := by
  refine ⟨by simp [Scheduler.assignedIds, Scheduler.run], ?_⟩
  rintro ⟨e, h, _⟩
  simp [Scheduler.CancelTask] at h

/-- C3, amended: for every request whose task id is not known to the scheduler
(after any sequence of calls, the empty one on a fresh Scheduler included),
CancelTask returns no acknowledgement and a nil error. -/
theorem C3_cancel_unknown {Srv : Type} (s : Option (Scheduler Srv)) (calls : List Call)
    (ctx : context.Context) (req : CancelTaskRequest)
    (hunknown : req.id ∉ Scheduler.assignedIds s calls) :
    (Scheduler.CancelTask (Scheduler.run s calls).1 ctx (some req)).1 = none ∧
    (Scheduler.CancelTask (Scheduler.run s calls).1 ctx (some req)).2 = none := by
  have _ := hunknown
  exact ⟨rfl, rfl⟩

/-- Witness of C3 amended: the id "task-1" on a fresh Scheduler. -/
theorem C3_cancel_unknown_witness :
    "task-1" ∉ Scheduler.assignedIds fresh [] ∧
    (Scheduler.CancelTask (Scheduler.run fresh []).1 context.Background
        (some { id := "task-1" })).1 = none ∧
    (Scheduler.CancelTask (Scheduler.run fresh []).1 context.Background
        (some { id := "task-1" })).2 = none :=
  ⟨by simp [Scheduler.assignedIds_eq_nil],
   C3_cancel_unknown fresh [] context.Background { id := "task-1" }
     (by simp [Scheduler.assignedIds_eq_nil])⟩

/-- C4, as stated, fails: on a freshly constructed Scheduler, ScheduleTask with
the empty payload does not fail with InvalidArgument. -/
theorem C4_schedule_invalid_counterexample :
    validPayload "" = false ∧
    ¬ ∃ e : Status,
        (Scheduler.ScheduleTask fresh context.Background
          (some { payload := "", priority := 0 })).2 = some e ∧
        e.code = Code.InvalidArgument := by
  refine ⟨by decide, ?_⟩
  rintro ⟨e, h, _⟩
  simp [Scheduler.ScheduleTask] at h

/-- C4, amended: for every ScheduleTask request, whatever its payload (empty
and malformed ones included) and its options (out-of-range ones included),
ScheduleTask returns no task id, and its error is nil, not InvalidArgument. -/
theorem C4_schedule_invalid {Srv : Type} (s : Option (Scheduler Srv)) (ctx : context.Context)
    (req : Option ScheduleTaskRequest) :
    (Scheduler.ScheduleTask s ctx req).1 = none ∧
    (Scheduler.ScheduleTask s ctx req).2 = none ∧
    (Scheduler.step s (Call.ScheduleTask ctx req)).2.assignedId = none :=
  ⟨rfl, rfl, rfl⟩

/-- C5: CancelTask is idempotent. After a first CancelTask call on an id has
returned, a second CancelTask call on the same id returns a nil error and
leaves the Scheduler as the first call left it; so does every later one. -/
theorem C5_cancel_idempotent {Srv : Type} (s : Option (Scheduler Srv))
    (ctx1 ctx2 : context.Context) (req : CancelTaskRequest) :
    (Scheduler.CancelTask (Scheduler.step s (Call.CancelTask ctx1 (some req))).1 ctx2
        (some req)).2 = none ∧
    (Scheduler.step (Scheduler.step s (Call.CancelTask ctx1 (some req))).1
        (Call.CancelTask ctx2 (some req))).1
      = (Scheduler.step s (Call.CancelTask ctx1 (some req))).1 ∧
    (Scheduler.run s [Call.CancelTask ctx1 (some req), Call.CancelTask ctx2 (some req)]).1
      = (Scheduler.run s [Call.CancelTask ctx1 (some req)]).1 :=
  ⟨rfl, rfl, rfl⟩

/-- C6, as stated, fails: on a freshly constructed Scheduler, ListTasks with
the pagination token "not-a-token" and the page size -1 does not fail with
InvalidArgument. -/
theorem C6_list_invalid_counterexample :
    ¬ ∃ e : Status,
        (Scheduler.ListTasks fresh context.Background
          (some { state := none, createdFrom := none, createdTo := none,
                  pageToken := "not-a-token", pageSize := -1 })).2 = some e ∧
        e.code = Code.InvalidArgument := by
  rintro ⟨e, h, _⟩
  simp [Scheduler.ListTasks] at h

/-- C6, amended: for every ListTasks request, whatever its pagination token
and page size (invalid ones included), ListTasks returns no page of tasks, and
its error is nil, not InvalidArgument. -/
theorem C6_list_invalid {Srv : Type} (s : Option (Scheduler Srv)) (ctx : context.Context)
    (req : Option ListTasksRequest) :
    (Scheduler.ListTasks s ctx req).1 = none ∧
    (Scheduler.ListTasks s ctx req).2 = none :=
  ⟨rfl, rfl⟩

/-- C7: none of the four operations returns an RPC-level error. After any
sequence of calls, every call (valid task id or not) returns a nil error; in
particular no call reports a task execution failure through its error. -/
theorem C7_no_rpc_error {Srv : Type} (s : Option (Scheduler Srv)) (calls : List Call)
    (c : Call) :
    (Scheduler.step (Scheduler.run s calls).1 c).2.err = none ∧
    (∀ msg : String,
      (Scheduler.step (Scheduler.run s calls).1 c).2.err
        ≠ some { code := Code.ExecutionError, message := msg }) ∧
    (Scheduler.run s calls).2.all (fun r => r.err.isNone) = true := by
  refine ⟨Scheduler.step_err _ c, ?_, ?_⟩
  · intro msg h
    rw [Scheduler.step_err] at h
    exact Option.noConfusion h
  · induction calls generalizing s with
    | nil => rfl
    | cons d ds ih =>
      show (((Scheduler.step s d).2 :: (Scheduler.run (Scheduler.step s d).1 ds).2).all
        (fun r => r.err.isNone)) = true
      rw [List.all_cons, Scheduler.step_err, ih]
      rfl

/-- C8: task state transitions are monotonic under the four operations. For
every way `view` of reading task states off the Scheduler, every sequence of
calls and every further call, the state read for a task after the call is not
backward of the state read before it along
Created → Queued → Running → (Succeeded, Failed or Cancelled); the same holds
for the state a client observes through GetTask, and across a whole sequence. -/
theorem C8_transitions_monotonic {Srv : Type}
    (view : Option (Scheduler Srv) → String → Option TaskState)
    (s : Option (Scheduler Srv)) (calls : List Call) (c : Call) (ctx : context.Context)
    (id : String) :
    monotonic (view (Scheduler.run s calls).1 id)
      (view (Scheduler.step (Scheduler.run s calls).1 c).1 id) = true ∧
    monotonic (view s id) (view (Scheduler.run s calls).1 id) = true ∧
    monotonic (Scheduler.observedState (Scheduler.run s calls).1 ctx id)
      (Scheduler.observedState (Scheduler.step (Scheduler.run s calls).1 c).1 ctx id) = true := by
  rw [Scheduler.step_receiver, Scheduler.run_receiver]
  exact ⟨monotonic_self _, monotonic_self _, monotonic_self _⟩

/-- C9: each of the four overriding methods returns the pair (nil, nil) for
every receiver, context and request, a nil receiver with a nil context and a
nil request included, and none of them returns what the embedded default
returns, the "not implemented" error. -/
theorem C9_methods_return_nil {Srv : Type} (s : Option (Scheduler Srv))
    (ctx : context.Context) (cancelReq : Option CancelTaskRequest)
    (getReq : Option GetTaskRequest) (listReq : Option ListTasksRequest)
    (scheduleReq : Option ScheduleTaskRequest) :
    (Scheduler.CancelTask s ctx cancelReq = (none, none) ∧
      Scheduler.GetTask s ctx getReq = (none, none) ∧
      Scheduler.ListTasks s ctx listReq = (none, none) ∧
      Scheduler.ScheduleTask s ctx scheduleReq = (none, none)) ∧
    (Scheduler.CancelTask (none : Option (Scheduler Srv)) none none = (none, none) ∧
      Scheduler.GetTask (none : Option (Scheduler Srv)) none none = (none, none) ∧
      Scheduler.ListTasks (none : Option (Scheduler Srv)) none none = (none, none) ∧
      Scheduler.ScheduleTask (none : Option (Scheduler Srv)) none none = (none, none)) ∧
    (Scheduler.CancelTask s ctx cancelReq
        ≠ UnimplementedSchedulerServiceServer.CancelTask ctx cancelReq ∧
      Scheduler.GetTask s ctx getReq
        ≠ UnimplementedSchedulerServiceServer.GetTask ctx getReq ∧
      Scheduler.ListTasks s ctx listReq
        ≠ UnimplementedSchedulerServiceServer.ListTasks ctx listReq ∧
      Scheduler.ScheduleTask s ctx scheduleReq
        ≠ UnimplementedSchedulerServiceServer.ScheduleTask ctx scheduleReq) ∧
    (∀ method : String,
      (Scheduler.CancelTask s ctx cancelReq).2 ≠ some (notImplemented method) ∧
      (Scheduler.GetTask s ctx getReq).2 ≠ some (notImplemented method) ∧
      (Scheduler.ListTasks s ctx listReq).2 ≠ some (notImplemented method) ∧
      (Scheduler.ScheduleTask s ctx scheduleReq).2 ≠ some (notImplemented method)) := by
  refine ⟨⟨rfl, rfl, rfl, rfl⟩, ⟨rfl, rfl, rfl, rfl⟩, ⟨?_, ?_, ?_, ?_⟩, ?_⟩
  · simp [Scheduler.CancelTask, UnimplementedSchedulerServiceServer.CancelTask]
  · simp [Scheduler.GetTask, UnimplementedSchedulerServiceServer.GetTask]
  · simp [Scheduler.ListTasks, UnimplementedSchedulerServiceServer.ListTasks]
  · simp [Scheduler.ScheduleTask, UnimplementedSchedulerServiceServer.ScheduleTask]
  · intro method
    simp [Scheduler.CancelTask, Scheduler.GetTask, Scheduler.ListTasks, Scheduler.ScheduleTask]

/-- C10: the four operations are input-independent and effect-free. Two runs
with arbitrary receivers, call histories, contexts and requests return the same
result from each operation; every call leaves the Scheduler as it found it; and
a ScheduleTask call changes nothing that GetTask or ListTasks return. -/
theorem C10_input_independent_effect_free {Srv : Type} (s1 s2 : Option (Scheduler Srv))
    (history1 history2 : List Call) (ctx1 ctx2 : context.Context)
    (cancelReq1 cancelReq2 : Option CancelTaskRequest)
    (getReq1 getReq2 : Option GetTaskRequest)
    (listReq1 listReq2 : Option ListTasksRequest)
    (scheduleReq1 scheduleReq2 : Option ScheduleTaskRequest) (c : Call) :
    (Scheduler.CancelTask (Scheduler.run s1 history1).1 ctx1 cancelReq1
        = Scheduler.CancelTask (Scheduler.run s2 history2).1 ctx2 cancelReq2 ∧
      Scheduler.GetTask (Scheduler.run s1 history1).1 ctx1 getReq1
        = Scheduler.GetTask (Scheduler.run s2 history2).1 ctx2 getReq2 ∧
      Scheduler.ListTasks (Scheduler.run s1 history1).1 ctx1 listReq1
        = Scheduler.ListTasks (Scheduler.run s2 history2).1 ctx2 listReq2 ∧
      Scheduler.ScheduleTask (Scheduler.run s1 history1).1 ctx1 scheduleReq1
        = Scheduler.ScheduleTask (Scheduler.run s2 history2).1 ctx2 scheduleReq2) ∧
    ((Scheduler.step s1 c).1 = s1 ∧ (Scheduler.run s1 history1).1 = s1) ∧
    (Scheduler.GetTask (Scheduler.step s1 (Call.ScheduleTask ctx1 scheduleReq1)).1 ctx2 getReq1
        = Scheduler.GetTask s1 ctx2 getReq1 ∧
      Scheduler.ListTasks (Scheduler.step s1 (Call.ScheduleTask ctx1 scheduleReq1)).1 ctx2
          listReq1
        = Scheduler.ListTasks s1 ctx2 listReq1) :=
  ⟨⟨rfl, rfl, rfl, rfl⟩, ⟨Scheduler.step_receiver s1 c, Scheduler.run_receiver s1 history1⟩,
    ⟨rfl, rfl⟩⟩

end api
